import Mathlib

/-!
Verification of the multi-source discovery and relevance-ranking subsystem
of the eduapp repository (src/pipeline.py), as a shallow embedding in Lean.

Python strings are modelled by `String` (operating on their character lists,
so that every definition evaluates by kernel reduction), Python floats by `ℚ`
(the scorer and ranker only use exact decimal constants, so rationals model
the computation faithfully at the small magnitudes involved), dicts with
optional keys by structures with `Option` fields, and raised exceptions by
`Except`.  External collaborators (the HTTP responses of the source adapters
and the LLM reply of the keyword extractor) are inputs of the embedded
functions, universally quantified in the theorems.
-/

attribute [local semireducible] Rat.add Rat.mul Rat.sub Rat.inv

namespace Eduapp

/-! ## Python string primitives -/

/-- Python `s.lower()` (ASCII texts). -/
def pyLower (s : String) : String := ⟨s.data.map Char.toLower⟩

/-- Python `s.strip()`: drop leading and trailing whitespace. -/
def pyStrip (s : String) : String :=
  ⟨((s.data.dropWhile Char.isWhitespace).reverse.dropWhile Char.isWhitespace).reverse⟩

/-- Python `s.split()` with no argument: split on whitespace runs, dropping
empty pieces. -/
def pySplit (s : String) : List String :=
  ((s.data.splitBy (fun a b => a.isWhitespace = b.isWhitespace)).filter
    (fun w => !(w.all Char.isWhitespace))).map (fun l => ⟨l⟩)

/-- Python `needle in hay` substring test. -/
def substrOf (needle hay : String) : Bool :=
  hay.data.tails.any (fun t => needle.data.isPrefixOf t)

/-- Helper for `pySplitOn`: split a character list at every occurrence of the
non-empty separator `s0 :: srest`, scanning left to right.  The fuel is an
upper bound on the scan steps (each step consumes at least one character, so
a fuel of the list's length never runs out). -/
def splitOnFuel (s0 : Char) (srest : List Char) : ℕ → List Char → List Char → List (List Char)
  | _, [], acc => [acc.reverse]
  | 0, _, acc => [acc.reverse]
  | fuel + 1, c :: cs, acc =>
    if (s0 :: srest).isPrefixOf (c :: cs) then
      acc.reverse :: splitOnFuel s0 srest fuel ((c :: cs).drop (srest.length + 1)) []
    else
      splitOnFuel s0 srest fuel cs (c :: acc)

/-- Python `s.split(sep)` for a literal separator. -/
def pySplitOn (s sep : String) : List String :=
  match sep.data with
  | [] => [s]
  | c :: rest => (splitOnFuel c rest s.data.length s.data []).map (fun l => ⟨l⟩)

/-- Python `sep.join(parts)`. -/
def pyJoin (sep : String) : List String → String
  | [] => ""
  | [x] => x
  | x :: xs => x ++ sep ++ pyJoin sep xs

/-- Python `s[:n]` character slice. -/
def pyTake (s : String) (n : ℕ) : String := ⟨s.data.take n⟩

/-- Python `s.rstrip('/')`. -/
def pyRstripSlash (s : String) : String :=
  ⟨(s.data.reverse.dropWhile (fun c => c = '/')).reverse⟩

/-- Python `int(s)` for decimal strings: optional sign then digits; `none`
models a raised `ValueError`. -/
def pyInt (s : String) : Option ℤ :=
  let t := pyStrip s
  let core : ℤ × List Char :=
    match t.data with
    | '-' :: rest => (-1, rest)
    | '+' :: rest => (1, rest)
    | l => (1, l)
  if core.2 ≠ [] ∧ core.2.all Char.isDigit then
    some (core.1 * (core.2.foldl (fun acc c => 10 * acc + (c.toNat - '0'.toNat)) 0 : ℕ))
  else none

/-! ## RelevanceScorer: `_calculate_relevance_score` (pipeline.py 953-987) -/

/-- The weight given to the keyword at 0-based position `i`:
`weight = 1.0 - (i * 0.15)` (pipeline.py line 966). -/
def relevanceWeight (i : ℕ) : ℚ := 1 - (i : ℚ) * (3/20)

/-- Points awarded for one (already lower-cased) keyword `kl`:
`weight*2.0` on a title hit, else `weight*1.5` on an abstract hit, else
`weight*0.8` when some word of the keyword longer than 3 characters occurs in
the combined text, else `0` (pipeline.py lines 969-979). -/
def keywordPoints (titleL abstractL textCombined : String) (w : ℚ) (kl : String) : ℚ :=
  if substrOf kl titleL then w * 2
  else if substrOf kl abstractL then w * (3/2)
  else if (pySplit kl).any (fun part => decide (3 < part.length) && substrOf part textCombined) then
    w * (4/5)
  else 0

/-- The scoring loop of `_calculate_relevance_score`: accumulates
(awarded points, total weight) over the keywords, `i` being the position of
the first keyword of the list. -/
def scoreLoop (titleL abstractL textCombined : String) : ℕ → List String → ℚ × ℚ
  | _, [] => (0, 0)
  | i, k :: ks =>
    let w := relevanceWeight i
    let pts := keywordPoints titleL abstractL textCombined w (pyLower k)
    let rest := scoreLoop titleL abstractL textCombined (i + 1) ks
    (pts + rest.1, w + rest.2)

/-- `_calculate_relevance_score(title, abstract, keywords)`
(pipeline.py 953-987). -/
def calculateRelevanceScore (title abstract : String) (keywords : List String) : ℚ :=
  if keywords = [] then 1/2
  else
    let textCombined := pyLower (title ++ " " ++ abstract)
    let r := scoreLoop (pyLower title) (pyLower abstract) textCombined 0 keywords
    if 0 < r.2 then min (r.1 / r.2) 1 else 0

/-! ## Paper records -/

/-- One paper candidate record (the dicts built by the three paper adapters).
Fields read through `dict.get` with a default, or probed with `in`, are
`Option`s. -/
structure Paper where
  title : String := ""
  authors : String := "Unknown Authors"
  year : Option String := none
  source : String := ""
  abstract : String := ""
  url : String := "#"
  relevance_score : Option ℚ := none
  citation_count : Option ℤ := none
  categories : List String := []
  fields_of_study : List String := []
  pmid : Option String := none
  relevance_label : Option String := none
deriving DecidableEq

/-- `paper.get('title', '').lower().strip()` (pipeline.py line 999). -/
def titleKey (p : Paper) : String := pyStrip (pyLower p.title)

/-- `set(title.split())` (pipeline.py line 1002). -/
def wordsOf (t : String) : Finset String := (pySplit t).toFinset

/-- The duplicate test of `_deduplicate_and_rank_papers` (pipeline.py
1004-1017): Jaccard word-set similarity of the two normalized titles
strictly above 0.8, computed only when both word sets are non-empty. -/
def similarTitles (t s : String) : Bool :=
  let tw := wordsOf t
  let sw := wordsOf s
  if tw.card ≠ 0 && sw.card ≠ 0 then
    decide (4/5 < (if 0 < (tw ∪ sw).card then (((tw ∩ sw).card : ℚ) / ((tw ∪ sw).card : ℚ)) else 0))
  else false

/-- The dedup scan of `_deduplicate_and_rank_papers` (pipeline.py 995-1021):
a record is kept when no previously seen title is similar and its normalized
title is non-empty; kept titles are added to the seen set. -/
def dedupPapersLoop : List Paper → List String → List Paper
  | [], _ => []
  | p :: rest, seen =>
    let t := titleKey p
    let isDup := seen.any (fun s => similarTitles t s)
    if isDup = false ∧ t ≠ "" then p :: dedupPapersLoop rest (t :: seen)
    else dedupPapersLoop rest seen

/-- The recency boost of `ranking_score` (pipeline.py 1028-1032):
`min((year - 2020) * 0.05, 0.2)` for a parseable year ≥ 2020, else 0
(a parse failure is caught and contributes 0). -/
def recencyBoost (p : Paper) : ℚ :=
  match pyInt (p.year.getD "2020") with
  | some y => if 2020 ≤ y then min (((y : ℚ) - 2020) * (1/20)) (1/5) else 0
  | none => 0

/-- The citation boost of `ranking_score` (pipeline.py 1034-1041): applies
only when the record carries a `citation_count` key. -/
def citationBoost (p : Paper) : ℚ :=
  match p.citation_count with
  | some c => if 100 < c then 1/10 else if 50 < c then 1/20 else 0
  | none => 0

/-- `ranking_score(paper)` (pipeline.py 1024-1043). -/
def rankingScore (p : Paper) : ℚ := p.relevance_score.getD (1/2) + recencyBoost p + citationBoost p

/-- The comparator of the ranking sort: descending `ranking_score`; the
stable `mergeSort` with this comparator models Python's stable
`list.sort(key=ranking_score, reverse=True)` (pipeline.py line 1046). -/
def paperLE (a b : Paper) : Bool := decide (rankingScore b ≤ rankingScore a)

/-- The human-readable relevance label (pipeline.py 1049-1058). -/
def relevanceLabel (s : ℚ) : String :=
  if 4/5 ≤ s then "Highly Relevant"
  else if 3/5 ≤ s then "Very Relevant"
  else if 2/5 ≤ s then "Relevant"
  else "Somewhat Relevant"

/-- The label pass over the ranked list (pipeline.py 1049-1058). -/
def attachLabel (p : Paper) : Paper :=
  { p with relevance_label := some (relevanceLabel (p.relevance_score.getD (1/2))) }

/-- The ranking sort of `_deduplicate_and_rank_papers` (pipeline.py line
1046): Python's stable `sort(key=ranking_score, reverse=True)`. -/
def rankPapers (l : List Paper) : List Paper := l.mergeSort paperLE

/-- `_deduplicate_and_rank_papers(papers, all_keywords)` (pipeline.py
989-1061).  The `all_keywords` parameter is accepted and unused, exactly as
in the source. -/
def deduplicateAndRankPapers (papers : List Paper) (allKeywords : List String) : List Paper :=
  if papers = [] then []
  else (rankPapers (dedupPapersLoop papers [])).map attachLabel

/-! ## Paper discovery orchestration: `find_papers` (pipeline.py 640-690) -/

/-- The fixed life-sciences vocabulary of `_is_life_sciences_topic`
(pipeline.py 694-700). -/
def lifeScienceTerms : List String :=
  ["biology", "medical", "medicine", "health", "clinical", "biochemistry",
   "genetics", "molecular", "cell", "protein", "gene", "dna", "rna",
   "pharmaceutical", "drug", "therapy", "treatment", "disease", "cancer",
   "neuroscience", "psychology", "physiology", "anatomy", "pathology",
   "microbiology", "immunology", "pharmacology", "epidemiology"]

/-- `_is_life_sciences_topic(topic, keywords)` (pipeline.py 692-706). -/
def isLifeSciencesTopic (topic : String) (keywords : List String) : Bool :=
  let topicLower := pyLower topic
  lifeScienceTerms.any (fun t => substrOf t topicLower) ||
    (keywords.map pyLower).any (fun k => lifeScienceTerms.any (fun t => substrOf t k))

/-- A raised Python exception that escapes `find_papers`. -/
inductive PyErr where
  | indexError
deriving DecidableEq

/-- The three paper source adapters, as external collaborators: each takes a
strategy keyword list and a result cap and either returns records or raises
(`Except.error`, caught by the orchestrator's per-adapter `try/except`). -/
structure Adapters where
  arxiv : List String → ℕ → Except Unit (List Paper)
  semanticScholar : List String → ℕ → Except Unit (List Paper)
  pubmed : List String → ℕ → Except Unit (List Paper)

/-- The per-adapter `try/except` of `find_papers` (pipeline.py 664-683): a
raising adapter contributes zero records. -/
def caught (r : Except Unit (List Paper)) : List Paper :=
  match r with
  | .ok l => l
  | .error _ => []

/-- One strategy iteration of `find_papers` (pipeline.py 657-685): arXiv with
cap `max//3`, Semantic Scholar with cap `max//3`, and PubMed with cap
`max//4` when the life-sciences heuristic fired.  Returns the pooled records
and the number of adapter calls attempted. -/
def runStrategy (ad : Adapters) (lifeSci : Bool) (maxPapers : ℕ) (kws : List String) :
    List Paper × ℕ :=
  let a := caught (ad.arxiv kws (maxPapers / 3))
  let s := caught (ad.semanticScholar kws (maxPapers / 3))
  if lifeSci then (a ++ s ++ caught (ad.pubmed kws (maxPapers / 4)), 3)
  else (a ++ s, 2)

/-- The strategy loop of `find_papers` (pipeline.py 657-685): strategies with
an empty keyword list are skipped; results of all strategies are pooled. -/
def runStrategies (ad : Adapters) (lifeSci : Bool) (maxPapers : ℕ) :
    List (List String) → List Paper × ℕ
  | [] => ([], 0)
  | kws :: rest =>
    if kws = [] then runStrategies ad lifeSci maxPapers rest
    else
      let r := runStrategy ad lifeSci maxPapers kws
      let r2 := runStrategies ad lifeSci maxPapers rest
      (r.1 ++ r2.1, r.2 + r2.2)

/-- The body of `find_papers` after keyword extraction (pipeline.py 648-690):
builds the three query strategies — note `topic.split()[0]` raises
`IndexError` on a blank topic —, runs them, deduplicates, ranks, and caps.
Returns the result list together with the number of adapter calls made. -/
def findPapersWithProfile (ad : Adapters) (topic : String) (research allKw : List String)
    (maxPapers : ℕ) : Except PyErr (List Paper × ℕ) :=
  match pySplit topic with
  | [] => .error .indexError
  | w :: _ =>
    let strategies := [research.take 3, (allKw.drop 3).take 3, w :: research.take 2]
    let r := runStrategies ad (isLifeSciencesTopic topic allKw) maxPapers strategies
    .ok ((deduplicateAndRankPapers r.1 (research ++ allKw)).take maxPapers, r.2)

/-! ## Keyword extraction (pipeline.py 546-638) -/

/-- The relevant fields of the JSON object a successful LLM reply parses to
(`data.get(...)` in pipeline.py 592-595); absent keys are `none`. -/
structure LLMKeywordData where
  main_topic : Option String := none
  research_keywords : Option (List String) := none
  broader_keywords : Option (List String) := none
  key_concepts : Option (List String) := none

/-- ASCII `[A-Z]`. -/
def isAsciiUpper (c : Char) : Bool := 'A' ≤ c && c ≤ 'Z'

/-- ASCII `[a-z]`. -/
def isAsciiLower (c : Char) : Bool := 'a' ≤ c && c ≤ 'z'

/-- A regex word character (`\w`), for word-boundary (`\b`) tests. -/
def isWordChar (c : Char) : Bool := c.isAlpha || c.isDigit || c = '_'

/-- Length of a match of `[A-Z][a-z]+` at the head of the list (greedy),
`none` when the head does not start such a word. -/
def capWordLen : List Char → Option ℕ
  | [] => none
  | c :: rest =>
    if isAsciiUpper c then
      let n := (rest.takeWhile isAsciiLower).length
      if n = 0 then none else some (n + 1)
    else none

/-- Whether a word boundary `\b` holds between the consumed text and the
remaining list (the next character is absent or not a word character). -/
def boundaryAfter : List Char → Bool
  | [] => true
  | c :: _ => !(isWordChar c)

/-- Length of the greedy match of `[A-Z][a-z]+(?:\s+[A-Z][a-z]+)*\b` (at
most `maxWords` words, for the `{0,2}` variant) starting at the head of the
list, with regex backtracking: when the greedy extension cannot end on a word
boundary the phrase ends at the previous word instead. -/
def phraseLen : ℕ → List Char → Option ℕ
  | 0, _ => none
  | mw + 1, cs =>
    match capWordLen cs with
    | none => none
    | some w =>
      let rest := cs.drop w
      let wsLen := (rest.takeWhile Char.isWhitespace).length
      let here := if boundaryAfter rest then some w else none
      if mw = 0 ∨ wsLen = 0 then here
      else
        match phraseLen mw (rest.drop wsLen) with
        | some ext => some (w + wsLen + ext)
        | none => here

/-- The scan of `re.findall` for the capitalized-phrase patterns of
`_fallback_keyword_extraction` (pipeline.py 616 and 633): leftmost
non-overlapping matches; `prevWord` tracks whether the previous character was
a word character (for the leading `\b`). -/
def findPhrasesAux (maxWords : ℕ) : List Char → Bool → List String
  | [], _ => []
  | c :: cs, prevWord =>
    if prevWord then findPhrasesAux maxWords cs (isWordChar c)
    else
      match phraseLen maxWords (c :: cs) with
      | none => findPhrasesAux maxWords cs (isWordChar c)
      | some n => (⟨(c :: cs).take n⟩ : String) :: findPhrasesAux maxWords (cs.drop (n - 1)) true
  termination_by cs _ => cs.length
  decreasing_by
    · simp only [List.length_cons]; omega
    · simp only [List.length_cons]; omega
    · simp only [List.length_drop, List.length_cons]; omega

/-- `re.findall(pattern, s)` for the capitalized-phrase pattern with at most
`maxWords` words per phrase. -/
def pyFindall (maxWords : ℕ) (s : String) : List String :=
  findPhrasesAux maxWords s.data false

/-- The stop-word set of `_fallback_keyword_extraction` (pipeline.py 619). -/
def commonWords : List String :=
  ["The", "This", "That", "These", "Those", "And", "Or", "But", "In", "On", "At",
   "To", "For", "Of", "With", "By", "From", "As", "An", "A", "All", "Any", "Both",
   "Each", "Few", "More", "Most", "Other", "Some", "Such", "Only", "Own", "Same",
   "So", "Than", "Too", "Very"]

/-- First occurrences in order (the key order of a CPython `Counter`). -/
def pyFirsts : List String → List String → List String
  | [], _ => []
  | w :: ws, seen =>
    if seen.contains w then pyFirsts ws seen else w :: pyFirsts ws (w :: seen)

/-- `Counter(ws).most_common(n)`: count pairs in first-insertion order,
stably sorted by descending count, first `n` taken. -/
def mostCommon (n : ℕ) (ws : List String) : List (String × ℕ) :=
  (((pyFirsts ws []).map (fun w => (w, ws.count w))).mergeSort
    (fun a b => decide (b.2 ≤ a.2))).take n

/-- The topic scan of `_fallback_keyword_extraction` (pipeline.py 628-636):
first sentence longer than 20 characters (stripped) that contains a
capitalized phrase of at most 3 words gives the topic. -/
def findTopic : List String → String
  | [] => "Academic Study Material"
  | s :: rest =>
    if 20 < (pyStrip s).length then
      let pot := pyFindall 3 s
      if pot ≠ [] then pyJoin " " (pot.take 2) else findTopic rest
    else findTopic rest

/-- `_fallback_keyword_extraction(text)` (pipeline.py 613-638). -/
def fallbackKeywordExtraction (text : String) : String × List String × List String :=
  let words := pyFindall (text.length + 1) text
  let filteredWords := words.filter (fun w => !(commonWords.contains w) && decide (3 < w.length))
  let topKeywords := (mostCommon 8 filteredWords).map (fun p => pyLower p.1)
  let topic := findTopic ((pySplitOn text ".").take 3)
  (topic, topKeywords.take 6, topKeywords)

/-- `extract_smart_keywords_and_topic(text)` (pipeline.py 546-611), with the
LLM reply modelled as an input: `some d` is a reply that parsed to a JSON
object, `none` is a parse failure or collaborator error (both fall back). -/
def extractSmartKeywordsAndTopic (llm : Option LLMKeywordData) (text : String) :
    String × List String × List String :=
  if pyStrip text = "" then ("Academic Study Material", ["study", "learning"], [])
  else
    match llm with
    | some d =>
      let research := d.research_keywords.getD []
      let allKw := research ++ d.key_concepts.getD [] ++ d.broader_keywords.getD []
      (d.main_topic.getD "Academic Study Material", research.take 6, allKw.take 10)
    | none => fallbackKeywordExtraction (pyTake text 6000)

/-- `find_papers(text, max_papers)` (pipeline.py 640-690): blank text
short-circuits to an empty list before any extraction or adapter call. -/
def findPapers (llm : Option LLMKeywordData) (ad : Adapters) (text : String) (maxPapers : ℕ) :
    Except PyErr (List Paper × ℕ) :=
  if pyStrip text = "" then .ok ([], 0)
  else
    let e := extractSmartKeywordsAndTopic llm text
    findPapersWithProfile ad e.1 e.2.1 e.2.2 maxPapers

/-! ## Semantic Scholar and PubMed record processing (pipeline.py 790-951) -/

/-- The fields the Semantic Scholar adapter reads from one JSON search
result; authors are modelled by their extracted names. -/
structure S2Record where
  title : Option String := none
  abstract : Option String := none
  authors : Option (List String) := none
  year : Option ℤ := none
  venue : Option String := none
  url : Option String := none
  citationCount : Option ℤ := none
  fieldsOfStudy : Option (List String) := none

/-- The per-record body of `_search_semantic_scholar_enhanced` (pipeline.py
805-838): records scoring below 0.3 are skipped. -/
def processS2Record (keywords : List String) (r : S2Record) : Option Paper :=
  let title := r.title.getD "Untitled"
  let abstract := r.abstract.getD ""
  let score := calculateRelevanceScore title abstract keywords
  if score < 3/10 then none
  else
    let authorsList := (r.authors.getD []).take 4
    some { title := title,
           authors := if (r.authors.getD []) ≠ [] then pyJoin ", " authorsList
                      else "Unknown Authors",
           year := some (match r.year with | some y => toString y | none => "2024"),
           source := r.venue.getD "Semantic Scholar",
           abstract := if 400 < abstract.length then pyTake abstract 400 ++ "..."
                       else if abstract ≠ "" then abstract else "No abstract available",
           url := r.url.getD "#",
           relevance_score := some score,
           citation_count := some (r.citationCount.getD 0),
           fields_of_study := (r.fieldsOfStudy.getD []).take 3 }

/-- The record loop of `_search_semantic_scholar_enhanced`. -/
def searchSemanticScholarProcess (records : List S2Record) (keywords : List String) :
    List Paper :=
  records.filterMap (processS2Record keywords)

/-- The fields `_parse_pubmed_xml_enhanced` reads from one `PubmedArticle`
element; `abstractTexts` are the non-null `AbstractText` contents and
`authors` the (ForeName, LastName) pairs with both names present. -/
structure PubmedArticle where
  title : Option String := none
  abstractTexts : List String := []
  authors : List (String × String) := []
  year : Option String := none
  journal : Option String := none
  pmid : Option String := none

/-- The per-article body of `_parse_pubmed_xml_enhanced` (pipeline.py
892-943): articles scoring below 0.2 are skipped. -/
def processPubmedArticle (keywords : List String) (a : PubmedArticle) : Option Paper :=
  let title := a.title.getD "Untitled"
  let abstract := if a.abstractTexts ≠ [] then pyJoin " " a.abstractTexts
                  else "No abstract available"
  let score := calculateRelevanceScore title abstract keywords
  if score < 1/5 then none
  else
    let authors := a.authors.map (fun nm => nm.1 ++ " " ++ nm.2)
    let pmid := a.pmid.getD ""
    some { title := title,
           authors := if authors ≠ [] then pyJoin ", " (authors.take 4) else "Unknown Authors",
           year := some (a.year.getD "2024"),
           source := a.journal.getD "PubMed",
           abstract := if 400 < abstract.length then pyTake abstract 400 ++ "..." else abstract,
           url := if pmid ≠ "" then "https://pubmed.ncbi.nlm.nih.gov/" ++ pmid ++ "/" else "#",
           relevance_score := some score,
           pmid := some pmid }

/-- The article loop of `_parse_pubmed_xml_enhanced`. -/
def parsePubmedXmlEnhanced (articles : List PubmedArticle) (keywords : List String) :
    List Paper :=
  articles.filterMap (processPubmedArticle keywords)

/-! ## Video deduplication and ranking (pipeline.py 1356-1399) -/

/-- One video candidate record. -/
structure Video where
  title : String := ""
  video_id : Option String := none
  url : String := ""
  educational_score : String := "Fair"
deriving DecidableEq

/-- `video.get('video_id') or video.get('url', '').split('v=')[-1].split('&')[0]`
(pipeline.py line 1366): a missing or empty `video_id` falls back to the URL
parse. -/
def videoIdOf (v : Video) : String :=
  let fromUrl := (pySplitOn ((pySplitOn v.url "v=").getLastD "") "&").headD ""
  match v.video_id with
  | some s => if s ≠ "" then s else fromUrl
  | none => fromUrl

/-- The dedup scan of `_deduplicate_and_rank_videos` (pipeline.py
1362-1370): kept when the id is non-empty and unseen. -/
def dedupVideosLoop : List Video → List String → List Video
  | [], _ => []
  | v :: rest, seen =>
    let vid := videoIdOf v
    if vid ≠ "" ∧ ¬ seen.contains vid then v :: dedupVideosLoop rest (vid :: seen)
    else dedupVideosLoop rest seen

/-- `rank_score(video)` (pipeline.py 1373-1393): educational tier plus 0.5
per keyword found in the title. -/
def videoRankScore (kws : List String) (v : Video) : ℚ :=
  let base : ℚ := if v.educational_score = "Excellent" then 4
    else if v.educational_score = "Very Good" then 3
    else if v.educational_score = "Good" then 2
    else 1
  base + ((kws.filter (fun k => substrOf (pyLower k) (pyLower v.title))).length : ℚ) * (1/2)

/-- `_deduplicate_and_rank_videos(videos, keywords)` (pipeline.py 1356-1399). -/
def deduplicateAndRankVideos (videos : List Video) (keywords : List String) : List Video :=
  if videos = [] then []
  else (dedupVideosLoop videos []).mergeSort
    (fun a b => decide (videoRankScore keywords b ≤ videoRankScore keywords a))

/-! ## Resource deduplication and ranking (pipeline.py 1818-1876) -/

/-- One web-resource candidate record. -/
structure Resource where
  title : String := ""
  url : String := ""
  description : String := ""
  source : String := ""
  quality_score : String := "Good"
deriving DecidableEq

/-- `url.split('?')[0].lower().rstrip('/')` (pipeline.py line 1831). -/
def normalizedResourceUrl (r : Resource) : String :=
  pyRstripSlash (pyLower ((pySplitOn r.url "?").headD ""))

/-- The dedup scan of `_deduplicate_and_rank_resources` (pipeline.py
1824-1835): kept when the normalized URL is non-empty and unseen. -/
def dedupResourcesLoop : List Resource → List String → List Resource
  | [], _ => []
  | r :: rest, seen =>
    let u := normalizedResourceUrl r
    if u ≠ "" ∧ ¬ seen.contains u then r :: dedupResourcesLoop rest (u :: seen)
    else dedupResourcesLoop rest seen

/-- `rank_score(resource)` (pipeline.py 1838-1870): quality tier, source
trust bonus, and per-keyword title/description bonuses. -/
def resourceRankScore (kws : List String) (r : Resource) : ℚ :=
  let q : ℚ := if r.quality_score = "Excellent" then 4
    else if r.quality_score = "High" then 3
    else if r.quality_score = "Good" then 2
    else 1
  let srcLower := pyLower r.source
  let trust : ℚ :=
    if ["mit.edu", "wikipedia", "khan", "coursera", "edx"].any (fun t => substrOf t srcLower) then 2
    else if [".edu", ".org"].any (fun t => substrOf t srcLower) then 1
    else 0
  let titleL := pyLower r.title
  let descL := pyLower r.description
  let kwScore : ℚ := (kws.map (fun k =>
    let kl := pyLower k
    if substrOf kl titleL then (1 : ℚ) else if substrOf kl descL then 1/2 else 0)).sum
  q + trust + kwScore

/-- `_deduplicate_and_rank_resources(resources, keywords)` (pipeline.py
1818-1876). -/
def deduplicateAndRankResources (resources : List Resource) (keywords : List String) :
    List Resource :=
  if resources = [] then []
  else (dedupResourcesLoop resources []).mergeSort
    (fun a b => decide (resourceRankScore keywords b ≤ resourceRankScore keywords a))

/-! ## Concrete adapter behaviours and sample records used in the theorems -/

/-- Adapters that all answer every call with zero records. -/
def emptyAdapters : Adapters :=
  ⟨fun _ _ => .ok [], fun _ _ => .ok [], fun _ _ => .ok []⟩

/-- An adapter that raises on every call. -/
def alwaysFailAdapter : List String → ℕ → Except Unit (List Paper) :=
  fun _ _ => .error ()

/-- Adapters where arXiv and PubMed raise on every call and only the
Semantic Scholar adapter (with behaviour `sem`) survives. -/
def survivorAdapters (sem : List String → ℕ → List Paper) : Adapters :=
  ⟨alwaysFailAdapter, fun k m => .ok (sem k m), alwaysFailAdapter⟩

/-- The records the surviving Semantic Scholar adapter contributes to the
pool across the three query strategies of `find_papers` (empty-keyword
strategies are skipped; each call is capped at `n // 3`). -/
def survivorPool (sem : List String → ℕ → List Paper) (topic : String)
    (research allKw : List String) (n : ℕ) : List Paper :=
  match pySplit topic with
  | [] => []
  | w :: _ =>
    [research.take 3, (allKw.drop 3).take 3, w :: research.take 2].foldr
      (fun kws acc => (if kws = [] then [] else sem kws (n / 3)) ++ acc) []

/-- A constant surviving-adapter behaviour. -/
def constSem : List String → ℕ → List Paper :=
  fun _ _ => [{ title := "Chlorophyll Function", relevance_score := some 1 }]

/-- Sample paper with a recent year and a high citation count. -/
def pSix : Paper :=
  { title := "Sample", year := some "2025", relevance_score := some (1/2),
    citation_count := some 200 }

/-- Two distinct papers with equal ranking scores. -/
def pTieA : Paper := { title := "Tie A", relevance_score := some (7/10) }

/-- Second paper of the tie. -/
def pTieB : Paper := { title := "Tie B", relevance_score := some (7/10) }

/-- Sample parsed LLM reply. -/
def dSample : LLMKeywordData :=
  { main_topic := some "Quantum Physics",
    research_keywords := some ["quantum", "field"],
    broader_keywords := some ["physics"],
    key_concepts := some ["renormalization"] }

/-- Sample Semantic Scholar search result. -/
def s2Sample : S2Record :=
  { title := some "Alpha Beta", abstract := some "", citationCount := some 10 }

/-- Sample PubMed article. -/
def pubmedSample : PubmedArticle :=
  { title := some "Gamma Delta", abstractTexts := ["about cells"], pmid := some "123" }

/-- Sample known-title paper. -/
def pKnown : Paper := { title := "Known Title" }

/-- Sample video with a platform id. -/
def vKnown : Video := { title := "Known Video", video_id := some "zzz9" }

/-- Sample resource with a URL. -/
def rKnown : Resource := { title := "Known Resource", url := "https://example.org/a/" }

end Eduapp
namespace Eduapp

/-! ## Theorems -/

theorem relevanceWeight_eq (i : ℕ) : relevanceWeight i = 1 - (i : ℚ) * (3/20) := rfl

theorem relevanceWeight_pos {i : ℕ} (h : i ≤ 6) : 0 < relevanceWeight i := by
  have hi : (i : ℚ) ≤ 6 := by exact_mod_cast h
  rw [relevanceWeight_eq]
  nlinarith

theorem keywordPoints_nonneg (tl al tc : String) {w : ℚ} (hw : 0 ≤ w) (kl : String) :
    0 ≤ keywordPoints tl al tc w kl := by
  unfold keywordPoints
  split_ifs <;> nlinarith

theorem scoreLoop_snd_nonneg (tl al tc : String) :
    ∀ (ks : List String) (i : ℕ), i + ks.length ≤ 7 → 0 ≤ (scoreLoop tl al tc i ks).2
  | [], i, _ => le_refl 0
  | k :: ks, i, h => by
    have h6 : i ≤ 6 := by simp only [List.length_cons] at h; omega
    have ih := scoreLoop_snd_nonneg tl al tc ks (i + 1)
      (by simp only [List.length_cons] at h; omega)
    have hw := relevanceWeight_pos h6
    simp only [scoreLoop]
    nlinarith

theorem scoreLoop_snd_pos (tl al tc : String) (k : String) (ks : List String) (i : ℕ)
    (h : i + (k :: ks).length ≤ 7) : 0 < (scoreLoop tl al tc i (k :: ks)).2 := by
  have h6 : i ≤ 6 := by simp only [List.length_cons] at h; omega
  have ih := scoreLoop_snd_nonneg tl al tc ks (i + 1)
    (by simp only [List.length_cons] at h; omega)
  have hw := relevanceWeight_pos h6
  simp only [scoreLoop]
  nlinarith

theorem scoreLoop_fst_nonneg (tl al tc : String) :
    ∀ (ks : List String) (i : ℕ), i + ks.length ≤ 7 → 0 ≤ (scoreLoop tl al tc i ks).1
  | [], i, _ => le_refl 0
  | k :: ks, i, h => by
    have h6 : i ≤ 6 := by simp only [List.length_cons] at h; omega
    have ih := scoreLoop_fst_nonneg tl al tc ks (i + 1)
      (by simp only [List.length_cons] at h; omega)
    have hp := keywordPoints_nonneg tl al tc (le_of_lt (relevanceWeight_pos h6)) (pyLower k)
    simp only [scoreLoop]
    nlinarith

/-- C1 (counterexample): with eight keywords the eighth keyword has negative
weight, and a title matching only that keyword produces a strictly negative
relevance score, outside the claimed interval [0, 1]. -/
theorem C1_score_out_of_bounds_counterexample :
    calculateRelevanceScore "match" ""
      ["aaaa", "bbbb", "cccc", "dddd", "eeee", "ffff", "gggg", "match"] < 0 := by decide

/-- C1 (amended): the relevance score equals 0.5 for an empty keyword list,
and lies in [0, 1] whenever the keyword list has at most 7 entries (for 8 or
more entries the unclamped weight `1 - 0.15*i` can drive it negative). -/
theorem C1_score_bounds_amended (title abstract : String) (keywords : List String) :
    (keywords = [] → calculateRelevanceScore title abstract keywords = 1/2) ∧
    (keywords.length ≤ 7 →
      0 ≤ calculateRelevanceScore title abstract keywords ∧
        calculateRelevanceScore title abstract keywords ≤ 1) := by
  constructor
  · intro h
    simp [calculateRelevanceScore, h]
  · intro hlen
    match hk : keywords with
    | [] =>
      rw [calculateRelevanceScore, if_pos rfl]
      constructor <;> norm_num
    | k :: ks =>
      rw [calculateRelevanceScore, if_neg (by simp)]
      have hpos := scoreLoop_snd_pos (pyLower title) (pyLower abstract)
        (pyLower (title ++ " " ++ abstract)) k ks 0 (by simpa using hlen)
      have hnn := scoreLoop_fst_nonneg (pyLower title) (pyLower abstract)
        (pyLower (title ++ " " ++ abstract)) (k :: ks) 0 (by simpa using hlen)
      rw [if_pos hpos]
      refine ⟨le_min (div_nonneg hnn (le_of_lt hpos)) zero_le_one, min_le_right _ _⟩

/-- Witness for C1_score_bounds_amended at concrete inputs. -/
theorem C1_score_bounds_witness :
    calculateRelevanceScore "Photosynthesis" "about plants" [] = 1/2 ∧
      (0 ≤ calculateRelevanceScore "Photosynthesis" "about plants" ["photosynthesis"] ∧
        calculateRelevanceScore "Photosynthesis" "about plants" ["photosynthesis"] ≤ 1) :=
  ⟨(C1_score_bounds_amended "Photosynthesis" "about plants" []).1 rfl,
   (C1_score_bounds_amended "Photosynthesis" "about plants" ["photosynthesis"]).2 (by decide)⟩

/-- C2 (counterexample): the weight of the keyword at position 7 is
`1 - 0.15*7 = -0.05`, not `max(0, 1 - 0.15*7) = 0`: the code never clamps. -/
theorem C2_weight_clamp_counterexample :
    relevanceWeight 7 < 0 ∧ relevanceWeight 7 ≠ max 0 (1 - (7 : ℚ) * (3/20)) := by decide

/-- C2 (amended): the weight at position `i` is the unclamped `1 - 0.15*i`;
it agrees with the claimed `max(0, 1 - 0.15*i)` exactly for `i ≤ 6`, and is
strictly negative (hence differs from the claimed clamped value) for `i ≥ 7`. -/
theorem C2_weight_decay_amended (i : ℕ) :
    (i ≤ 6 → relevanceWeight i = max 0 (1 - (i : ℚ) * (3/20))) ∧
    (6 < i → relevanceWeight i < 0 ∧ relevanceWeight i ≠ max 0 (1 - (i : ℚ) * (3/20))) := by
  constructor
  · intro h
    rw [relevanceWeight_eq, max_eq_right (le_of_lt (by simpa [relevanceWeight_eq] using relevanceWeight_pos h))]
  · intro h
    have hi : (7 : ℚ) ≤ (i : ℚ) := by exact_mod_cast h
    have hneg : relevanceWeight i < 0 := by rw [relevanceWeight_eq]; nlinarith
    refine ⟨hneg, ?_⟩
    have : max 0 (1 - (i : ℚ) * (3/20)) = 0 :=
      max_eq_left (by rw [relevanceWeight_eq] at hneg; linarith)
    rw [this]
    exact ne_of_lt hneg

/-- Witness for C2_weight_decay_amended at positions 3 and 8. -/
theorem C2_weight_decay_witness :
    relevanceWeight 3 = max 0 (1 - (3 : ℚ) * (3/20)) ∧
      (relevanceWeight 8 < 0 ∧ relevanceWeight 8 ≠ max 0 (1 - (8 : ℚ) * (3/20))) :=
  ⟨(C2_weight_decay_amended 3).1 (by decide), (C2_weight_decay_amended 8).2 (by decide)⟩

end Eduapp
namespace Eduapp

/-- C3 (counterexample): the two records whose titles differ only by a
trailing period are NOT merged: the period stays attached to the final word
under `title.split()`, so the Jaccard similarity is 4/6 ≤ 0.8 and the dedup
keeps both records, where the claim demands a single record. -/
theorem C3_trailing_period_counterexample :
    (deduplicateAndRankPapers
      [{ title := "Deep Learning for Image Classification" },
       { title := "Deep Learning for Image Classification." }] []).length = 2 := by
  rw [deduplicateAndRankPapers, if_neg (by decide), List.length_map, rankPapers,
    List.length_mergeSort]
  decide

/-- C3 (amended): the trailing-period pair stays two records (similarity
4/6); records whose titles agree up to letter case are merged to one
(similarity 1); and two 8-word titles sharing only 2 words stay two records
(similarity 1/7). -/
theorem C3_dedup_threshold_amended :
    (deduplicateAndRankPapers
      [{ title := "Deep Learning for Image Classification" },
       { title := "Deep Learning for Image Classification." }] []).length = 2 ∧
    (deduplicateAndRankPapers
      [{ title := "Deep Learning for Image Classification" },
       { title := "deep learning for image classification" }] []).length = 1 ∧
    (deduplicateAndRankPapers
      [{ title := "one two three four five six seven eight" },
       { title := "one two alpha beta gamma delta epsilon zeta" }] []).length = 2 := by
  refine ⟨?_, ?_, ?_⟩ <;>
    rw [deduplicateAndRankPapers, if_neg (by decide), List.length_map, rankPapers,
      List.length_mergeSort] <;>
    decide

/-- C4 (counterexample): a profile with both keyword lists empty but the
default non-blank topic does not short-circuit: the `combined` strategy is
built from the topic's first word and two adapter calls are made (arXiv and
Semantic Scholar), where the claim demands zero calls. -/
theorem C4_empty_profile_counterexample :
    findPapersWithProfile emptyAdapters "Academic Study Material" [] [] 10 =
      .ok ([], 2) ∧
    findPapersWithProfile emptyAdapters "Academic Study Material" [] [] 10 ≠
      .ok ([], 0) := by
  have h : findPapersWithProfile emptyAdapters "Academic Study Material" [] [] 10 =
      .ok ([], 2) := by rfl
  exact ⟨h, by rw [h]; simp⟩

/-- C4 (amended): the zero-call empty short-circuit of `find_papers` is
keyed on blank input text, not on an empty keyword profile: blank text gives
an empty result with zero adapter calls, while an empty keyword profile with
a topic that has a first word still makes at least the two `combined`
adapter calls. -/
theorem C4_empty_input_amended (llm : Option LLMKeywordData) (ad : Adapters) (n : ℕ)
    (text : String) :
    (pyStrip text = "" → findPapers llm ad text n = .ok ([], 0)) ∧
    (∀ topic : String, pySplit topic ≠ [] →
      ∃ res calls, findPapersWithProfile ad topic [] [] n = .ok (res, calls) ∧ 2 ≤ calls) := by
  constructor
  · intro h
    simp [findPapers, h]
  · intro topic h
    match hsplit : pySplit topic with
    | [] => exact absurd hsplit h
    | w :: ws =>
      have hval : findPapersWithProfile ad topic [] [] n =
          .ok ((deduplicateAndRankPapers
              (runStrategies ad (isLifeSciencesTopic topic []) n [[], [], [w]]).1 []).take n,
            (runStrategies ad (isLifeSciencesTopic topic []) n [[], [], [w]]).2) := by
        simp [findPapersWithProfile, hsplit]
      cases hls : isLifeSciencesTopic topic [] with
      | false =>
        refine ⟨_, _, hval, ?_⟩
        simp [runStrategies, runStrategy, hls]
      | true =>
        refine ⟨_, _, hval, ?_⟩
        simp [runStrategies, runStrategy, hls]

/-- Witness for C4_empty_input_amended: blank text and a one-word topic. -/
theorem C4_empty_input_witness :
    findPapers none emptyAdapters "   " 5 = .ok ([], 0) ∧
    (∃ res calls,
      findPapersWithProfile emptyAdapters "Topology" [] [] 5 = .ok (res, calls) ∧ 2 ≤ calls) :=
  ⟨(C4_empty_input_amended none emptyAdapters 5 "   ").1 (by decide),
   (C4_empty_input_amended none emptyAdapters 5 "x").2 "Topology" (by decide)⟩

/-- C5 (counterexample): with two of the three adapters raising on every
call, discovery with a blank topic still raises `IndexError` from
`topic.split()[0]`, where the claim demands that the call never raise. -/
theorem C5_partial_failure_counterexample :
    findPapersWithProfile (survivorAdapters constSem) "" ["alpha"] [] 5 =
      .error .indexError := by rfl

theorem runStrategies_survivor (sem : List String → ℕ → List Paper) (lifeSci : Bool) (n : ℕ) :
    ∀ kwss : List (List String),
      (runStrategies (survivorAdapters sem) lifeSci n kwss).1 =
        kwss.foldr (fun kws acc => (if kws = [] then [] else sem kws (n / 3)) ++ acc) []
  | [] => rfl
  | kws :: rest => by
    have ih := runStrategies_survivor sem lifeSci n rest
    by_cases h : kws = []
    · simp [runStrategies, h, ih]
    · simp only [survivorAdapters] at ih
      cases lifeSci <;>
        simp [runStrategies, runStrategy, h, survivorAdapters, alwaysFailAdapter, caught, ih]

/-- C5 (amended): provided the topic has a first word, a discovery call in
which the arXiv and PubMed adapters raise on every call never raises: it
returns the deduplicated, ranked results built from the surviving Semantic
Scholar adapter's pooled records, capped at the requested count. -/
theorem C5_partial_failure_amended (topic : String) (research allKw : List String) (n : ℕ)
    (sem : List String → ℕ → List Paper) (h : pySplit topic ≠ []) :
    ∃ calls, findPapersWithProfile (survivorAdapters sem) topic research allKw n =
      .ok ((deduplicateAndRankPapers (survivorPool sem topic research allKw n)
        (research ++ allKw)).take n, calls) := by
  match hsplit : pySplit topic with
  | [] => exact absurd hsplit h
  | w :: ws =>
    refine ⟨(runStrategies (survivorAdapters sem) (isLifeSciencesTopic topic allKw) n
      [research.take 3, (allKw.drop 3).take 3, w :: research.take 2]).2, ?_⟩
    simp only [findPapersWithProfile, hsplit, survivorPool,
      runStrategies_survivor sem (isLifeSciencesTopic topic allKw) n]

/-- Witness for C5_partial_failure_amended at a concrete profile. -/
theorem C5_partial_failure_witness :
    ∃ calls, findPapersWithProfile (survivorAdapters constSem) "Photosynthesis"
        ["chlorophyll"] [] 4 =
      .ok ((deduplicateAndRankPapers
        (survivorPool constSem "Photosynthesis" ["chlorophyll"] [] 4) (["chlorophyll"] ++ [])).take 4,
        calls) :=
  C5_partial_failure_amended "Photosynthesis" ["chlorophyll"] [] 4 constSem (by decide)

end Eduapp
namespace Eduapp

theorem paperLE_trans : ∀ a b c : Paper, paperLE a b → paperLE b c → paperLE a c := by
  intro a b c hab hbc
  simp only [paperLE, decide_eq_true_eq] at *
  exact le_trans hbc hab

theorem paperLE_total : ∀ a b : Paper, paperLE a b || paperLE b a := by
  intro a b
  simp only [paperLE, Bool.or_eq_true, decide_eq_true_eq]
  exact le_total (rankingScore b) (rankingScore a)

theorem rankPapers_pairwise (l : List Paper) :
    (rankPapers l).Pairwise (fun a b => rankingScore b ≤ rankingScore a) := by
  have h := List.sorted_mergeSort paperLE_trans paperLE_total l
  exact h.imp (fun hab => of_decide_eq_true hab)

/-- C6 (confirmed): the paper rank key is
`relevance_score + recencyBonus + citationBonus` with the claimed bonus
formulas; the ranked list is sorted descending by that key; equal-key records
keep their relative input order (stable sort); and the cap keeps exactly
`min(n, count)` records, all of which dominate every dropped record. -/
theorem C6_rank_and_cap (papers : List Paper) (n : ℕ) :
    (∀ (p : Paper) (y : ℤ), pyInt (p.year.getD "2020") = some y →
      rankingScore p = p.relevance_score.getD (1/2)
        + (if 2020 ≤ y then min (((y : ℚ) - 2020) * (1/20)) (1/5) else 0)
        + citationBoost p) ∧
    (∀ (p : Paper) (c : ℤ), p.citation_count = some c →
      citationBoost p = (if 100 < c then 1/10 else if 50 < c then 1/20 else 0)) ∧
    (rankPapers papers).Pairwise (fun a b => rankingScore b ≤ rankingScore a) ∧
    (∀ a b : Paper, [a, b].Sublist papers → rankingScore a = rankingScore b →
      [a, b].Sublist (rankPapers papers)) ∧
    ((rankPapers papers).take n).length = min n papers.length ∧
    (∀ p ∈ (rankPapers papers).take n, ∀ q ∈ (rankPapers papers).drop n,
      rankingScore q ≤ rankingScore p) := by
  refine ⟨?_, ?_, rankPapers_pairwise papers, ?_, ?_, ?_⟩
  · intro p y hy
    simp only [rankingScore, recencyBoost, hy]
  · intro p c hc
    simp only [citationBoost, hc]
  · intro a b hsub heq
    refine List.pair_sublist_mergeSort paperLE_trans paperLE_total ?_ hsub
    simp [paperLE, heq]
  · simp [rankPapers, List.length_take]
  · intro p hp q hq
    have hsorted := rankPapers_pairwise papers
    rw [← List.take_append_drop n (rankPapers papers)] at hsorted
    exact (List.pairwise_append.mp hsorted).2.2 p hp q hq

/-- Witness for C6_rank_and_cap: the bonus formulas at a 2025 paper with 200
citations, and stability on a tie. -/
theorem C6_rank_and_cap_witness :
    (rankingScore pSix = pSix.relevance_score.getD (1/2)
      + (if (2020 : ℤ) ≤ 2025 then min (((2025 : ℚ) - 2020) * (1/20)) (1/5) else 0)
      + citationBoost pSix) ∧
    (citationBoost pSix = (if (100 : ℤ) < 200 then 1/10 else if (50 : ℤ) < 200 then 1/20 else 0)) ∧
    [pTieA, pTieB].Sublist (rankPapers [pTieA, pTieB]) :=
  ⟨(C6_rank_and_cap [pSix] 1).1 pSix 2025 (by decide),
   (C6_rank_and_cap [pSix] 1).2.1 pSix 200 (by decide),
   (C6_rank_and_cap [pTieA, pTieB] 2).2.2.2.1 pTieA pTieB (List.Sublist.refl _) (by decide)⟩

end Eduapp
namespace Eduapp

theorem similarTitles_symm (t s : String) : similarTitles t s = similarTitles s t := by
  simp only [similarTitles]
  rw [Finset.inter_comm, Finset.union_comm, Bool.and_comm]

theorem dedupPapersLoop_mem : ∀ (l : List Paper) (seen : List String) (p : Paper),
    p ∈ dedupPapersLoop l seen →
    titleKey p ≠ "" ∧ ∀ s ∈ seen, similarTitles (titleKey p) s = false
  | [], _, p, h => absurd h (List.not_mem_nil p)
  | q :: rest, seen, p, h => by
    simp only [dedupPapersLoop] at h
    by_cases hc : (seen.any fun s => similarTitles (titleKey q) s) = false ∧ titleKey q ≠ ""
    · rw [if_pos hc] at h
      rcases List.mem_cons.mp h with rfl | hmem
      · exact ⟨hc.2, fun s hs => Bool.eq_false_iff.mpr ((List.any_eq_false.mp hc.1) s hs)⟩
      · have ih := dedupPapersLoop_mem rest (titleKey q :: seen) p hmem
        exact ⟨ih.1, fun s hs => ih.2 s (List.mem_cons_of_mem _ hs)⟩
    · rw [if_neg hc] at h
      exact dedupPapersLoop_mem rest seen p h

theorem dedupPapersLoop_pairwise : ∀ (l : List Paper) (seen : List String),
    (dedupPapersLoop l seen).Pairwise
      (fun a b => similarTitles (titleKey b) (titleKey a) = false)
  | [], _ => List.Pairwise.nil
  | q :: rest, seen => by
    simp only [dedupPapersLoop]
    by_cases hc : (seen.any fun s => similarTitles (titleKey q) s) = false ∧ titleKey q ≠ ""
    · rw [if_pos hc]
      refine List.Pairwise.cons ?_ (dedupPapersLoop_pairwise rest _)
      intro b hb
      exact (dedupPapersLoop_mem rest (titleKey q :: seen) b hb).2 (titleKey q)
        (List.mem_cons_self _ _)
    · rw [if_neg hc]
      exact dedupPapersLoop_pairwise rest seen

theorem dedupPapersLoop_noop : ∀ (l : List Paper) (seen : List String),
    (∀ p ∈ l, titleKey p ≠ "") →
    (∀ p ∈ l, ∀ s ∈ seen, similarTitles (titleKey p) s = false) →
    l.Pairwise (fun a b => similarTitles (titleKey b) (titleKey a) = false) →
    dedupPapersLoop l seen = l
  | [], _, _, _, _ => rfl
  | q :: rest, seen, h1, h2, hp => by
    have hq := h1 q (List.mem_cons_self q rest)
    have hany : (seen.any fun s => similarTitles (titleKey q) s) = false :=
      List.any_eq_false.mpr (fun s hs => by
        rw [h2 q (List.mem_cons_self q rest) s hs]; simp)
    simp only [dedupPapersLoop]
    rw [if_pos ⟨hany, hq⟩]
    congr 1
    apply dedupPapersLoop_noop rest (titleKey q :: seen)
    · exact fun p hp' => h1 p (List.mem_cons_of_mem _ hp')
    · intro p hp' s hs
      rcases List.mem_cons.mp hs with rfl | hs'
      · exact List.rel_of_pairwise_cons hp hp'
      · exact h2 p (List.mem_cons_of_mem _ hp') s hs'
    · exact (List.pairwise_cons.mp hp).2

theorem titleKey_attachLabel (p : Paper) : titleKey (attachLabel p) = titleKey p := rfl

theorem paperLE_attachLabel (a b : Paper) : paperLE (attachLabel a) (attachLabel b) = paperLE a b := rfl

theorem attachLabel_idem (p : Paper) : attachLabel (attachLabel p) = attachLabel p := rfl

/-- C7 (confirmed): `_deduplicate_and_rank_papers` is idempotent — running
it on its own output (with the same keywords) returns that output unchanged:
survivors are pairwise dissimilar with non-empty titles so the second dedup
keeps everything, the list is already sorted so the stable sort fixes it, and
the label pass overwrites each label with the same value. -/
theorem C7_dedup_rank_idempotent (papers : List Paper) (kws : List String) :
    deduplicateAndRankPapers (deduplicateAndRankPapers papers kws) kws =
      deduplicateAndRankPapers papers kws := by
  by_cases h0 : papers = []
  · simp [deduplicateAndRankPapers, h0]
  · set out := deduplicateAndRankPapers papers kws with hout_def
    by_cases hout : out = []
    · rw [hout]; simp [deduplicateAndRankPapers]
    · have hL : out = (rankPapers (dedupPapersLoop papers [])).map attachLabel := by
        rw [hout_def, deduplicateAndRankPapers, if_neg h0]
      have hmemKey : ∀ p ∈ out, titleKey p ≠ "" := by
        intro p hp
        rw [hL] at hp
        obtain ⟨q, hq, rfl⟩ := List.mem_map.mp hp
        rw [titleKey_attachLabel]
        exact (dedupPapersLoop_mem papers [] q (by
          rwa [rankPapers, List.mem_mergeSort] at hq)).1
      have hsym : Symmetric (fun a b : Paper => similarTitles (titleKey b) (titleKey a) = false) := by
        intro a b hab
        rw [similarTitles_symm]
        exact hab
      have hpair : out.Pairwise (fun a b => similarTitles (titleKey b) (titleKey a) = false) := by
        rw [hL, List.pairwise_map]
        simp only [titleKey_attachLabel]
        have hperm : List.Perm (rankPapers (dedupPapersLoop papers []))
            (dedupPapersLoop papers []) :=
          List.mergeSort_perm (dedupPapersLoop papers []) paperLE
        exact (hperm.pairwise_iff (fun hab => hsym hab)).mpr (dedupPapersLoop_pairwise papers [])
      have hsorted : out.Pairwise (fun a b => paperLE a b = true) := by
        rw [hL, List.pairwise_map]
        simp only [paperLE_attachLabel]
        exact List.sorted_mergeSort paperLE_trans paperLE_total (dedupPapersLoop papers [])
      rw [deduplicateAndRankPapers, if_neg hout,
        dedupPapersLoop_noop out [] hmemKey
          (fun p _ s hs => absurd hs (List.not_mem_nil s)) hpair,
        rankPapers, List.mergeSort_of_sorted hsorted, hL, List.map_map]
      exact List.map_congr_left (fun a _ => attachLabel_idem a)

end Eduapp
namespace Eduapp

theorem dedupVideosLoop_mem : ∀ (l : List Video) (seen : List String) (v : Video),
    v ∈ dedupVideosLoop l seen → videoIdOf v ≠ ""
  | [], _, v, h => absurd h (List.not_mem_nil v)
  | q :: rest, seen, v, h => by
    simp only [dedupVideosLoop] at h
    by_cases hc : videoIdOf q ≠ "" ∧ ¬ seen.contains (videoIdOf q)
    · rw [if_pos hc] at h
      rcases List.mem_cons.mp h with rfl | hmem
      · exact hc.1
      · exact dedupVideosLoop_mem rest _ v hmem
    · rw [if_neg hc] at h
      exact dedupVideosLoop_mem rest seen v h

theorem dedupResourcesLoop_mem : ∀ (l : List Resource) (seen : List String) (r : Resource),
    r ∈ dedupResourcesLoop l seen → normalizedResourceUrl r ≠ ""
  | [], _, r, h => absurd h (List.not_mem_nil r)
  | q :: rest, seen, r, h => by
    simp only [dedupResourcesLoop] at h
    by_cases hc : normalizedResourceUrl q ≠ "" ∧ ¬ seen.contains (normalizedResourceUrl q)
    · rw [if_pos hc] at h
      rcases List.mem_cons.mp h with rfl | hmem
      · exact hc.1
      · exact dedupResourcesLoop_mem rest _ r hmem
    · rw [if_neg hc] at h
      exact dedupResourcesLoop_mem rest seen r h

/-- C8 (counterexample): an unknown-keyed record is dropped, not kept: a
video with no id and no parseable URL id, a paper whose title strips to
empty, and a resource with an empty URL all vanish from the deduplicated
output, where the claim demands they be kept as-is. -/
theorem C8_unknown_dropped_counterexample :
    deduplicateAndRankVideos [{ title := "Mystery", video_id := none, url := "" }] [] = [] ∧
    dedupPapersLoop [{ title := "   " }] [] = [] ∧
    deduplicateAndRankResources [{ title := "R", url := "" }] [] = [] := by
  refine ⟨?_, by decide, ?_⟩
  · rw [deduplicateAndRankVideos, if_neg (by decide),
      show dedupVideosLoop [{ title := "Mystery", video_id := none, url := "" }] [] = []
        from by decide,
      List.mergeSort_nil]
  · rw [deduplicateAndRankResources, if_neg (by decide),
      show dedupResourcesLoop [{ title := "R", url := "" }] [] = [] from by decide,
      List.mergeSort_nil]

/-- C8 (amended): unknown-keyed records are indeed never merged with another
unknown — but not because they are kept: every record surviving a
deduplication pass has a non-empty key (papers: normalized title; videos:
platform id; resources: normalized URL), unknown-keyed records being dropped
from the output. -/
theorem C8_unknowns_never_collapse_amended :
    (∀ (papers : List Paper) (p : Paper), p ∈ dedupPapersLoop papers [] → titleKey p ≠ "") ∧
    (∀ (videos : List Video) (kws : List String) (v : Video),
      v ∈ deduplicateAndRankVideos videos kws → videoIdOf v ≠ "") ∧
    (∀ (resources : List Resource) (kws : List String) (r : Resource),
      r ∈ deduplicateAndRankResources resources kws → normalizedResourceUrl r ≠ "") := by
  refine ⟨fun papers p hp => (dedupPapersLoop_mem papers [] p hp).1, ?_, ?_⟩
  · intro videos kws v hv
    rw [deduplicateAndRankVideos] at hv
    by_cases h0 : videos = []
    · rw [if_pos h0] at hv
      exact absurd hv (List.not_mem_nil v)
    · rw [if_neg h0, List.mem_mergeSort] at hv
      exact dedupVideosLoop_mem videos [] v hv
  · intro resources kws r hr
    rw [deduplicateAndRankResources] at hr
    by_cases h0 : resources = []
    · rw [if_pos h0] at hr
      exact absurd hr (List.not_mem_nil r)
    · rw [if_neg h0, List.mem_mergeSort] at hr
      exact dedupResourcesLoop_mem resources [] r hr

/-- Witness for C8_unknowns_never_collapse_amended at known-keyed records. -/
theorem C8_unknowns_witness :
    titleKey pKnown ≠ "" ∧ videoIdOf vKnown ≠ "" ∧ normalizedResourceUrl rKnown ≠ "" := by
  have hv : deduplicateAndRankVideos [vKnown] [] = [vKnown] := by
    rw [deduplicateAndRankVideos, if_neg (by decide),
      show dedupVideosLoop [vKnown] [] = [vKnown] from by decide, List.mergeSort_singleton]
  have hr : deduplicateAndRankResources [rKnown] [] = [rKnown] := by
    rw [deduplicateAndRankResources, if_neg (by decide),
      show dedupResourcesLoop [rKnown] [] = [rKnown] from by decide, List.mergeSort_singleton]
  refine ⟨C8_unknowns_never_collapse_amended.1 [pKnown] pKnown (by decide),
          C8_unknowns_never_collapse_amended.2.1 [vKnown] [] vKnown ?_,
          C8_unknowns_never_collapse_amended.2.2 [rKnown] [] rKnown ?_⟩
  · rw [hv]
    exact List.mem_singleton.mpr rfl
  · rw [hr]
    exact List.mem_singleton.mpr rfl

theorem mem_take_of_le_append {α : Type} : ∀ (l r : List α) (m n : ℕ), m ≤ n →
    ∀ k, k ∈ l.take m → k ∈ (l ++ r).take n
  | [], _, m, _, _, k, hk => by simp at hk
  | a :: l, _, 0, _, _, k, hk => by simp at hk
  | a :: l, r, m + 1, 0, h, k, hk => by omega
  | a :: l, r, m + 1, n + 1, h, k, hk => by
    simp only [List.take_succ_cons, List.mem_cons] at hk
    rcases hk with rfl | hk
    · simp [List.take_succ_cons]
    · have := mem_take_of_le_append l r m n (by omega) k hk
      simp only [List.cons_append, List.take_succ_cons, List.mem_cons]
      exact Or.inr this

/-- C9 (counterexample): on the empty-input path the extractor returns
research keywords `["study", "learning"]` with an EMPTY all-keywords list,
so the research list is not a subset of the all list as the claim demands. -/
theorem C9_superset_counterexample :
    "study" ∈ (extractSmartKeywordsAndTopic none "").2.1 ∧
    "study" ∉ (extractSmartKeywordsAndTopic none "").2.2 := by decide

/-- C9 (amended): every keyword profile has at most 6 research keywords and
at most 10 all keywords; on the LLM-parse and heuristic-fallback paths
(non-blank input) every research keyword also occurs in the all-keywords
list, but on the empty-input path the profile is
`(research = ["study", "learning"], all = [])` and the superset property
fails. -/
theorem C9_profile_invariants_amended (llm : Option LLMKeywordData) (text : String) :
    (extractSmartKeywordsAndTopic llm text).2.1.length ≤ 6 ∧
    (extractSmartKeywordsAndTopic llm text).2.2.length ≤ 10 ∧
    (pyStrip text ≠ "" → ∀ k ∈ (extractSmartKeywordsAndTopic llm text).2.1,
      k ∈ (extractSmartKeywordsAndTopic llm text).2.2) := by
  by_cases ht : pyStrip text = ""
  · simp [extractSmartKeywordsAndTopic, ht]
  · cases llm with
    | some d =>
      simp only [extractSmartKeywordsAndTopic, if_neg ht]
      refine ⟨List.length_take_le _ _, List.length_take_le _ _, fun _ k hk => ?_⟩
      rw [List.append_assoc]
      exact mem_take_of_le_append _ _ 6 10 (by omega) k hk
    | none =>
      simp only [extractSmartKeywordsAndTopic, if_neg ht, fallbackKeywordExtraction]
      refine ⟨List.length_take_le _ _, ?_, fun _ k hk => List.mem_of_mem_take hk⟩
      rw [List.length_map, mostCommon]
      exact le_trans (List.length_take_le _ _) (by omega)

/-- Witness for C9_profile_invariants_amended on the LLM path. -/
theorem C9_profile_invariants_witness :
    (extractSmartKeywordsAndTopic (some dSample) "Quantum field theory notes").2.1.length ≤ 6 ∧
    "quantum" ∈ (extractSmartKeywordsAndTopic (some dSample) "Quantum field theory notes").2.2 :=
  ⟨(C9_profile_invariants_amended (some dSample) "Quantum field theory notes").1,
   (C9_profile_invariants_amended (some dSample) "Quantum field theory notes").2.2
     (by decide) "quantum" (by decide)⟩

/-- C10 (confirmed): every record the Semantic Scholar adapter emits carries
a relevance score of at least 0.3, and every record the PubMed XML parser
emits carries a relevance score of at least 0.2 — lower-scoring candidates
are dropped inside the adapters, before pooling, dedup, and ranking. -/
theorem C10_adapter_threshold_invariants (records : List S2Record)
    (articles : List PubmedArticle) (kws kws2 : List String) :
    (∀ p ∈ searchSemanticScholarProcess records kws,
      ∃ s, p.relevance_score = some s ∧ 3/10 ≤ s) ∧
    (∀ p ∈ parsePubmedXmlEnhanced articles kws2,
      ∃ s, p.relevance_score = some s ∧ 1/5 ≤ s) := by
  constructor
  · intro p hp
    obtain ⟨r, hr, heq⟩ := List.mem_filterMap.mp hp
    by_cases hs : calculateRelevanceScore (r.title.getD "Untitled") (r.abstract.getD "") kws < 3/10
    · simp [processS2Record, hs] at heq
    · simp only [processS2Record] at heq
      rw [if_neg hs] at heq
      refine ⟨calculateRelevanceScore (r.title.getD "Untitled") (r.abstract.getD "") kws,
        ?_, not_lt.mp hs⟩
      rw [← Option.some_inj.mp heq]
  · intro p hp
    obtain ⟨a, ha, heq⟩ := List.mem_filterMap.mp hp
    simp only [processPubmedArticle] at heq
    by_cases hs : calculateRelevanceScore (a.title.getD "Untitled")
        (if a.abstractTexts ≠ [] then pyJoin " " a.abstractTexts
         else "No abstract available") kws2 < 1/5
    · rw [if_pos hs] at heq
      exact absurd heq (by simp)
    · rw [if_neg hs] at heq
      refine ⟨calculateRelevanceScore (a.title.getD "Untitled")
        (if a.abstractTexts ≠ [] then pyJoin " " a.abstractTexts
         else "No abstract available") kws2, ?_, not_lt.mp hs⟩
      rw [← Option.some_inj.mp heq]

/-- Witness for C10_adapter_threshold_invariants at concrete records that
pass the thresholds. -/
theorem C10_adapter_threshold_witness :
    (∃ s, ((searchSemanticScholarProcess [s2Sample] ["alpha"]).headD {}).relevance_score =
      some s ∧ 3/10 ≤ s) ∧
    (∃ s, ((parsePubmedXmlEnhanced [pubmedSample] ["gamma"]).headD {}).relevance_score =
      some s ∧ 1/5 ≤ s) :=
  ⟨(C10_adapter_threshold_invariants [s2Sample] [] ["alpha"] []).1 _ (by decide),
   (C10_adapter_threshold_invariants [] [pubmedSample] [] ["gamma"]).2 _ (by decide)⟩

end Eduapp
